import Mathlib

/-!
Verification of the HTTL-S client-side templating engine (src/statejs.js).

The development shallowly embeds the current implementation (the second,
v2.1 half of statejs.js, lines ~940-1862): the change-tracking proxy and
its microtask batching (scheduleCallback, createDeepProxy), the watch
registry (watch), the expression-evaluation helpers (unsafeEval,
parseTemplate, createRangeArray), the for-loop renderer's numeric-range
path (CustomForLoop.render), the condition evaluator
(ConditionBlock._evaluateCondition), the captured-template mechanism of
CustomForLoop and ConditionBlock, and the setState dispatcher (both the
current one and the older early-returning one that precedes it in the
file).

Host-language (JavaScript) values are modelled by JVal: undefined, null,
booleans, integers, strings, and objects carrying a reference identity and
a String() behaviour.  Arbitrary host evaluation (new Function(...)) is
modelled by an evaluation oracle of type String -> EvalOutcome; the
repository's own code around it (the try/catch of unsafeEval, the
substitution loops, the comparison chains) is translated faithfully.
-/

namespace HTTLS

/-- A JavaScript value, restricted to the shapes the engine manipulates.
The constructor obj models an object by its reference identity together
with the behaviour of String() on it (none models a toString that throws).
Numbers are modelled as integers. -/
inductive JVal where
  | undefined
  | null
  | boolV (b : Bool)
  | num (n : Int)
  | str (s : String)
  | obj (id : Nat) (toStr : Option String)
deriving Repr, DecidableEq

/-- Outcome of handing an expression string to the host evaluator
(new Function(keys, "return (" + expression + ")") applied to the values):
either a value or a thrown exception. -/
inductive EvalOutcome where
  | ok (v : JVal)
  | thrown
deriving Repr, DecidableEq

/-- An evaluation environment: what the host evaluator returns for each
expression string (the globally watched variables are part of the oracle). -/
def Env : Type := String → EvalOutcome

/-- Model of unsafeEval (statejs.js:1114-1132): evaluates the expression
and on ANY thrown error logs and returns undefined - errors never
propagate to the caller. -/
def unsafeEval (env : Env) (expression : String) : JVal :=
  match env expression with
  | .ok v => v
  | .thrown => .undefined

/-- Conversion String(v) for a JVal; none means the conversion itself
throws (an object whose toString throws). -/
def jsToString : JVal → Option String
  | .undefined => some "undefined"
  | .null => some "null"
  | .boolV b => some (cond b "true" "false")
  | .num n => some (toString n)
  | .str s => some s
  | .obj _ ts => ts

/-- Whitespace trimming of a character list, modelling the .trim() call on
the captured expression text. -/
def trimChars (l : List Char) : List Char :=
  ((l.dropWhile Char.isWhitespace).reverse.dropWhile Char.isWhitespace).reverse

/-- Trimmed form of an expression string, as the replace callback passes it
to unsafeEval. -/
def trimExpr (e : String) : String :=
  String.mk (trimChars e.toList)

/-- Body of the replace callback in parseTemplate (statejs.js:1140-1151):
evaluate the trimmed expression via unsafeEval; a result that is neither
undefined nor null is stringified; undefined/null gives the empty string;
only a throw during String(result) reaches the catch clause, which returns
the original matched text. -/
def replaceOne (env : Env) (expression matched : String) : String :=
  let result := unsafeEval env (trimExpr expression)
  match result with
  | .undefined => ""
  | .null => ""
  | v =>
    match jsToString v with
    | some s => s
    | none => matched

/-- Character-level scan implementing the global regex replace of
parseTemplate.  The mode argument is none outside a placeholder and
some buf while lazily collecting the inner text of an opened placeholder
(mirroring the non-greedy capture group of the mustache regex); an
unterminated opening stays verbatim in the output, exactly as an
unmatched regex leaves the text untouched. -/
def scanTpl (env : Env) : Option (List Char) → List Char → List Char
  | none, [] => []
  | some buf, [] => '{' :: '{' :: buf
  | none, [c] => [c]
  | some buf, [c] => '{' :: '{' :: (buf ++ [c])
  | none, c1 :: c2 :: rest =>
    if c1 = '{' ∧ c2 = '{' then
      scanTpl env (some []) rest
    else
      c1 :: scanTpl env none (c2 :: rest)
  | some buf, c1 :: c2 :: rest =>
    if c1 = '}' ∧ c2 = '}' then
      (replaceOne env (String.mk buf)
          (String.mk ('{' :: '{' :: (buf ++ ['}', '}'])))).toList
        ++ scanTpl env none rest
    else
      scanTpl env (some (buf ++ [c1])) (c2 :: rest)

/-- Model of parseTemplate (statejs.js:1139-1152): replaces every
double-brace placeholder in the template by the result of replaceOne. -/
def parseTemplate (env : Env) (template : String) : String :=
  String.mk (scanTpl env none template.toList)

/-- Ascending loop of createRangeArray:
for (let i = start; i <= end; i += step) result.push(i), for step > 0. -/
def rangeUp (endv step : Int) (h : 0 < step) (i : Int) : List Int :=
  if _h2 : i ≤ endv then i :: rangeUp endv step h (i + step) else []
termination_by (endv + step - i).toNat
decreasing_by omega

/-- Descending loop of createRangeArray:
for (let i = start; i >= end; i += step) result.push(i), for step < 0. -/
def rangeDown (endv step : Int) (h : step < 0) (i : Int) : List Int :=
  if _h2 : endv ≤ i then i :: rangeDown endv step h (i + step) else []
termination_by (i + 1 - endv - step).toNat
decreasing_by omega

/-- Model of createRangeArray (statejs.js:1161-1169): ascending loop for
positive step, descending loop for negative step, and neither loop for a
zero step (the result stays empty). -/
def createRangeArray (start endv step : Int) : List Int :=
  if h : 0 < step then rangeUp endv step h start
  else if h2 : step < 0 then rangeDown endv step h2 start
  else []

/-- JavaScript indexing array[i]: undefined outside the bounds. -/
def jsIndex (a : List Int) (i : Int) : Option Int :=
  if i < 0 then none else a[i.toNat]?

/-- The iteration loop of CustomForLoop.render (statejs.js:1241-1266):
for (let i = start; i < bound; i += step) over the (possibly generated)
array, pairing each visited index with the element found there.  The
positivity hypothesis on step reflects that the renderer replaces a falsy
or missing step attribute by 1 (parseInt(...) || 1); a negative authored
step would make this very loop diverge in the source whenever it enters. -/
def loopIter (bound step : Int) (h : 0 < step) (a : List Int) (i : Int) :
    List (Int × Option Int) :=
  if _h2 : i < bound then (i, jsIndex a i) :: loopIter bound step h a (i + step) else []
termination_by (bound - i).toNat
decreasing_by omega

/-- Numeric-range path of CustomForLoop.render (statejs.js:1213-1266) when
no array attribute is supplied: array starts empty, the range fallback
builds createRangeArray(start, end - 1, step) when end > start, and the
render loop then walks indices from start up to min(end, array.length). -/
def forLoopRangeIterations (start endv step : Int) (h : 0 < step) :
    List (Int × Option Int) :=
  let array : List Int := []
  let array :=
    if array.length = 0 ∧ start < endv then createRangeArray start (endv - 1) step
    else array
  loopIter (min endv (array.length : Int)) step h array start

/-! ## Condition evaluation (ConditionBlock._evaluateCondition) -/

/-- JavaScript strict equality (the === operator) on the modelled values:
equal primitives of the same type are strictly equal; objects are strictly
equal exactly when they are the same reference. -/
def jsStrictEq : JVal → JVal → Bool
  | .undefined, .undefined => true
  | .null, .null => true
  | .boolV a, .boolV b => a = b
  | .num a, .num b => a = b
  | .str a, .str b => a = b
  | .obj i _, .obj j _ => i = j
  | _, _ => false

/-- JavaScript ToNumber on the modelled values, with none standing for NaN.
Strings are modelled as decimal-integer numerals (the empty string is 0 and
anything unparsable is NaN); objects are modelled as NaN. -/
def toNumber : JVal → Option Int
  | .undefined => none
  | .null => some 0
  | .boolV b => some (cond b 1 0)
  | .num n => some n
  | .str s => if s = "" then some 0 else s.toInt?
  | .obj _ _ => none

/-- JavaScript relational less-than: lexicographic when both operands are
strings, otherwise numeric with any NaN making the comparison false. -/
def jsLt : JVal → JVal → Bool
  | .str a, .str b => a < b
  | a, b =>
    match toNumber a, toNumber b with
    | some x, some y => x < y
    | _, _ => false

/-- JavaScript relational less-or-equal (false whenever NaN is involved). -/
def jsLe : JVal → JVal → Bool
  | .str a, .str b => a ≤ b
  | a, b =>
    match toNumber a, toNumber b with
    | some x, some y => x ≤ y
    | _, _ => false

/-- JavaScript a > b. -/
def jsGt (a b : JVal) : Bool := jsLt b a

/-- JavaScript a >= b. -/
def jsGe (a b : JVal) : Bool := jsLe b a

/-- JavaScript Boolean(v) truthiness. -/
def jsTruthy : JVal → Bool
  | .undefined => false
  | .null => false
  | .boolV b => b
  | .num n => n ≠ 0
  | .str s => s ≠ ""
  | .obj _ _ => true

/-- The attributes of an if-condition element that
ConditionBlock._evaluateCondition reads (getAttribute returns none when the
attribute is absent). -/
structure IfNode where
  value : Option String := none
  eq : Option String := none
  neq : Option String := none
  gt : Option String := none
  lt : Option String := none
  gte : Option String := none
  lte : Option String := none

/-- Evaluation of an attribute that may be absent: getAttribute yields null
and the template-literal interpolation then evaluates "return (null)",
producing the value null; a present attribute goes through unsafeEval. -/
def unsafeEvalAttr (env : Env) : Option String → JVal
  | some s => unsafeEval env s
  | none => .null

/-- Model of ConditionBlock._evaluateCondition (statejs.js:1690-1733): the
value expression is evaluated once, then the first present comparison
attribute in the fixed order eq, neq, gt, lt, gte, lte is honoured, falling
back to truthiness.  The surrounding try/catch never fires because
unsafeEval already converts every evaluation error into undefined. -/
def evaluateCondition (env : Env) (n : IfNode) : Bool :=
  let value := unsafeEvalAttr env n.value
  match n.eq, n.neq, n.gt, n.lt, n.gte, n.lte with
  | some a, _, _, _, _, _ => jsStrictEq value (unsafeEval env a)
  | none, some a, _, _, _, _ => !jsStrictEq value (unsafeEval env a)
  | none, none, some a, _, _, _ => jsGt value (unsafeEval env a)
  | none, none, none, some a, _, _ => jsLt value (unsafeEval env a)
  | none, none, none, none, some a, _ => jsGe value (unsafeEval env a)
  | none, none, none, none, none, some a => jsLe value (unsafeEval env a)
  | none, none, none, none, none, none => jsTruthy value

/-! ## The setState dispatcher (current and older implementation) -/

/-- The externally observable refresh operations setState can perform, in
the order it performs them. -/
inductive Action where
  | showLoader
  | hideLoader
  | renderLoopId (id : String)
  | renderIfId (id : String)
  | renderStateId (id : String)
  | runDataJs
  | runInnerHtml
  | renderAllLoops
  | renderDataLoops
  | renderIncludes
  | renderAllConditions
  | renderAllStates
deriving Repr, DecidableEq

/-- The option object accepted by setState, with the defaults of the
source.  The three scoping options default to false in the source; none
models false / absent, and the empty string is falsy in the if tests. -/
structure SetStateOptions where
  loopid : Option String := none
  stateId : Option String := none
  ifid : Option String := none
  states : Bool := false
  showloader : Bool := true
  datajs : Bool := true
  innerhtml : Bool := true
  loops : Bool := true
  dataloops : Bool := true
  templates : Bool := false
  conditions : Bool := true

/-- Truthiness of a scoping option: a missing value and the empty string
are falsy. -/
def truthyId : Option String → Bool
  | some id => id ≠ ""
  | none => false

/-- The scoped render actions of one category: present only when the
scoping id is truthy. -/
def scopedAction (o : Option String) (mk : String → Action) : List Action :=
  match o with
  | some id => if id ≠ "" then [mk id] else []
  | none => []

/-- Model of the CURRENT setState (statejs.js:1359-1442) as the sequence of
refresh operations it performs.  The three scoped branches do NOT return:
execution falls through to every category whose flag is (by default)
true. -/
def setState (o : SetStateOptions) : List Action :=
  (if o.showloader then [Action.showLoader] else [])
    ++ scopedAction o.loopid Action.renderLoopId
    ++ scopedAction o.ifid Action.renderIfId
    ++ scopedAction o.stateId Action.renderStateId
    ++ (if o.datajs then [Action.runDataJs] else [])
    ++ (if o.innerhtml then [Action.runInnerHtml] else [])
    ++ (if o.loops then [Action.renderAllLoops] else [])
    ++ (if o.dataloops then [Action.renderDataLoops] else [])
    ++ (if o.templates then [Action.renderIncludes] else [])
    ++ (if o.conditions then [Action.renderAllConditions] else [])
    ++ (if o.states then [Action.renderAllStates] else [])
    ++ (if o.showloader then [Action.hideLoader] else [])

/-- Model of the OLDER setState implementation (statejs.js:351-438): each
scoped branch hides the loader and returns immediately, so a scoped call
touches nothing else. -/
def setStateOld (o : SetStateOptions) : List Action :=
  (if o.showloader then [Action.showLoader] else [])
    ++ (if truthyId o.loopid then
          scopedAction o.loopid Action.renderLoopId
            ++ (if o.showloader then [Action.hideLoader] else [])
        else if truthyId o.ifid then
          scopedAction o.ifid Action.renderIfId
            ++ (if o.showloader then [Action.hideLoader] else [])
        else if truthyId o.stateId then
          scopedAction o.stateId Action.renderStateId
            ++ (if o.showloader then [Action.hideLoader] else [])
        else
          (if o.datajs then [Action.runDataJs] else [])
            ++ (if o.innerhtml then [Action.runInnerHtml] else [])
            ++ (if o.loops then [Action.renderAllLoops] else [])
            ++ (if o.dataloops then [Action.renderDataLoops] else [])
            ++ (if o.templates then [Action.renderIncludes] else [])
            ++ (if o.conditions then [Action.renderAllConditions] else [])
            ++ (if o.states then [Action.renderAllStates] else [])
            ++ (if o.showloader then [Action.hideLoader] else []))

/-! ## The watch registry (watch, statejs.js:1053-1103) -/

/-- A property slot installed on window by Object.defineProperty: the
stored value (scalar-valued in this model) and the identity of the trigger
callback the accessor schedules. -/
structure PropSlot where
  value : Int
  cbId : Nat
deriving Repr, DecidableEq

/-- Object.defineProperty on window: the slots are configurable, so a
redefinition of an existing name REPLACES its accessor. -/
def defineProp : List (String × PropSlot) → String → PropSlot → List (String × PropSlot)
  | [], name, slot => [(name, slot)]
  | (q, w) :: t, name, slot =>
    if q = name then (name, slot) :: t else (q, w) :: defineProp t name slot

/-- Set.add on the watchedVars set of names: adding a member again leaves
the set unchanged. -/
def setAdd (s : List String) (x : String) : List String :=
  if x ∈ s then s else s ++ [x]

/-- The global registry state that watch manipulates: the window property
slots and the watchedVars name set. -/
structure WRegistry where
  window : List (String × PropSlot)
  watchedVars : List String
deriving Repr, DecidableEq

/-- Model of watch (statejs.js:1053-1103) for a scalar initial value.  The
function warns when the name already exists on window (no state effect),
then UNCONDITIONALLY creates a fresh closure value holding the default,
redefines the window accessor, and adds the name to the watchedVars set.
There is no early return for an already-watched name. -/
def watch (propName : String) (cbId : Nat) (defaultValue : Int) (st : WRegistry) :
    WRegistry :=
  { window := defineProp st.window propName ⟨defaultValue, cbId⟩
    watchedVars := setAdd st.watchedVars propName }

/-! ## The change-tracking proxy and notification batching
(scheduleCallback and createDeepProxy, statejs.js:940-1045) -/

/-- The underlying watched value: a flag recording whether it is an array
(Array.isArray never changes for a given target) and its enumerable
fields.  Field values are modelled as integers. -/
structure RObj where
  isArr : Bool
  fields : List (String × Int)
deriving Repr, DecidableEq

/-- Reflect.set: update the property in place or add it. -/
def setField : List (String × Int) → String → Int → List (String × Int)
  | [], p, v => [(p, v)]
  | (q, w) :: t, p, v =>
    if q = p then (p, v) :: t else (q, w) :: setField t p v

/-- Reflect.set on the target object. -/
def reflectSet (o : RObj) (p : String) (v : Int) : RObj :=
  { o with fields := setField o.fields p v }

/-- Reflect.deleteProperty on the target object. -/
def reflectDelete (o : RObj) (p : String) : RObj :=
  { o with fields := o.fields.filter (fun kv => kv.1 ≠ p) }

/-- The error raised by the self-mutation guard of the proxy traps and the
watch setter. -/
inductive WatchErr where
  | selfMutation
deriving Repr, DecidableEq

/-- The per-variable reactive state: the underlying target, whether the
trigger is in the scheduledCallbacks set, how many queued microtasks will
run it, which callback the global activeWatcher slot currently holds, and
the record of callback invocations (each with the value observed). -/
structure WatchSt where
  target : RObj
  schedSet : Bool
  pending : Nat
  active : Option Nat
  fires : List RObj
deriving Repr, DecidableEq

/-- The clean state at the start of a tick for a freshly watched value. -/
def initSt (v0 : RObj) : WatchSt :=
  { target := v0, schedSet := false, pending := 0, active := none, fires := [] }

/-- Model of scheduleCallback (statejs.js:956-969): a callback already in
the scheduledCallbacks set is not enqueued again; otherwise it is added to
the set and one microtask invoking it is queued. -/
def scheduleCallback (st : WatchSt) : WatchSt :=
  if st.schedSet then st
  else { st with schedSet := true, pending := st.pending + 1 }

/-- The set trap of createDeepProxy (statejs.js:1006-1022): a mutation
while this variable's own callback is the active watcher throws; a length
write on an array performs the set without scheduling; any other write
performs the set and schedules the callback. -/
def proxySet (cbId : Nat) (st : WatchSt) (p : String) (v : Int) :
    Except WatchErr WatchSt :=
  if st.active = some cbId then
    .error .selfMutation
  else if st.target.isArr ∧ p = "length" then
    .ok { st with target := reflectSet st.target p v }
  else
    .ok (scheduleCallback { st with target := reflectSet st.target p v })

/-- The deleteProperty trap of createDeepProxy (statejs.js:1023-1035):
guarded against self-mutation, then deletes and schedules. -/
def proxyDelete (cbId : Nat) (st : WatchSt) (p : String) :
    Except WatchErr WatchSt :=
  if st.active = some cbId then
    .error .selfMutation
  else
    .ok (scheduleCallback { st with target := reflectDelete st.target p })

/-- The window accessor setter installed by watch (statejs.js:1081-1097):
guarded against self-mutation, then replaces the stored value and
schedules the trigger. -/
def rootAssign (cbId : Nat) (st : WatchSt) (newTarget : RObj) :
    Except WatchErr WatchSt :=
  if st.active = some cbId then
    .error .selfMutation
  else
    .ok (scheduleCallback { st with target := newTarget })

/-- The behaviour of the author-supplied callback during one invocation: it
transforms the observable state and may throw (some err). -/
def CbBody : Type := WatchSt → WatchSt × Option Unit

/-- One queued microtask from scheduleCallback (statejs.js:960-968): remove
the callback from the scheduled set, set activeWatcher, run the callback
body, and in the finally clause clear activeWatcher whether the body
returned or threw. -/
def runScheduledJob (cbId : Nat) (body : CbBody) (st : WatchSt) : WatchSt :=
  let st1 := { st with schedSet := false, pending := st.pending - 1, active := some cbId }
  let st2 := (body st1).1
  { st2 with active := none }

/-- Draining n queued microtasks at the end of the tick. -/
def flushJobs (cbId : Nat) (body : CbBody) : Nat → WatchSt → WatchSt
  | 0, st => st
  | n + 1, st => flushJobs cbId body n (runScheduledJob cbId body st)

/-- End of the synchronous unit: the microtask queue drains every pending
job. -/
def runTick (cbId : Nat) (body : CbBody) (st : WatchSt) : WatchSt :=
  flushJobs cbId body st.pending st

/-- The registered notification callback of the batching claim: the trigger
passes the current stored value to the author callback, which here records
the invocation. -/
def recordFire : CbBody :=
  fun st => ({ st with fires := st.fires ++ [st.target] }, none)

/-- One synchronous mutation performed through the wrapper. -/
inductive Mut where
  | set (p : String) (v : Int)
  | del (p : String)
deriving Repr, DecidableEq

/-- The effect of a mutation on the raw target (what Reflect does). -/
def rawApply (o : RObj) : Mut → RObj
  | .set p v => reflectSet o p v
  | .del p => reflectDelete o p

/-- Whether a mutation schedules a notification: every delete does, and a
set does unless it writes the length property of an array. -/
def notifies (isArr : Bool) : Mut → Bool
  | .set p _ => !(isArr && p == "length")
  | .del _ => true

/-- Performing one mutation through the proxy traps. -/
def applyMut (cbId : Nat) (st : WatchSt) : Mut → Except WatchErr WatchSt
  | .set p v => proxySet cbId st p v
  | .del p => proxyDelete cbId st p

/-- Performing a sequence of synchronous mutations through the proxy
traps. -/
def applyMuts (cbId : Nat) : WatchSt → List Mut → Except WatchErr WatchSt
  | st, [] => .ok st
  | st, m :: ms => (applyMut cbId st m).bind (fun st2 => applyMuts cbId st2 ms)

/-! ## Referential stability of createDeepProxy (statejs.js:980-1045) -/

/-- An object graph as seen by the deep proxy: leaves are primitive values
and every object node carries the reference identity of the underlying
JavaScript object together with its named children. -/
inductive JTree where
  | leaf (v : Int)
  | node (id : Nat) (children : List (String × JTree))

/-- The two-level proxyCache (WeakMap target -> WeakMap callback -> proxy),
flattened to a map from (target identity, callback identity) to the proxy
identity, together with an allocator for fresh proxy identities. -/
structure Cache where
  entries : List ((Nat × Nat) × Nat)
  fresh : Nat

/-- WeakMap lookup in the flattened proxy cache. -/
def cacheLookup (k : Nat × Nat) : List ((Nat × Nat) × Nat) → Option Nat
  | [] => none
  | (k2, v) :: rest => if k2 = k then some v else cacheLookup k rest

/-- Reflect.get of a named property on the underlying object. -/
def childLookup (p : String) : List (String × JTree) → Option JTree
  | [] => none
  | (q, t) :: rest => if q = p then some t else childLookup p rest

/-- What createDeepProxy returns: non-objects pass through unwrapped, and
objects come back as a proxy with its own reference identity over the
underlying tree. -/
inductive WrapRes where
  | raw (v : Int)
  | wrapped (pid : Nat) (t : JTree)

/-- Reference equality of results as JavaScript code observes it: raw
primitives compare by value, proxies by their identity. -/
def WrapRes.refEq : WrapRes → WrapRes → Bool
  | .raw a, .raw b => a = b
  | .wrapped i _, .wrapped j _ => i = j
  | _, _ => false

/-- Model of createDeepProxy (statejs.js:980-1045): a non-object target is
returned as is; for an object target the (target, callback) entry of the
proxyCache is consulted first and only a miss allocates a new proxy and
stores it in the cache. -/
def createDeepProxy (cb : Nat) (t : JTree) (st : Cache) : WrapRes × Cache :=
  match t with
  | .leaf v => (.raw v, st)
  | .node id ch =>
    match cacheLookup (id, cb) st.entries with
    | some pid => (.wrapped pid (.node id ch), st)
    | none =>
      (.wrapped st.fresh (.node id ch),
        ⟨((id, cb), st.fresh) :: st.entries, st.fresh + 1⟩)

/-- The get trap of createDeepProxy (statejs.js:998-1004): Reflect.get
reads the property off the underlying object and an object-valued result
is recursively wrapped with the same callback; anything else is returned
verbatim (a missing property reads as undefined, modelled none). -/
def proxyGet (cb : Nat) (t : JTree) (p : String) (st : Cache) :
    Option WrapRes × Cache :=
  match t with
  | .leaf _ => (none, st)
  | .node _ ch =>
    match childLookup p ch with
    | some sub =>
      let r := createDeepProxy cb sub st
      (some r.1, r.2)
    | none => (none, st)

/-- Successive property reads along a path, starting from an already
obtained read result (reading a property is only possible on a wrapped
object). -/
def readSteps (cb : Nat) : Option WrapRes → List String → Cache → Option WrapRes × Cache
  | r, [], st => (r, st)
  | some (.wrapped _ t), p :: ps, st =>
    let r2 := proxyGet cb t p st
    readSteps cb r2.1 ps r2.2
  | _, _ :: _, st => (none, st)

/-- Reading a property path off the tracked wrapper of a value: wrap the
root, then follow the path through the get trap. -/
def readPath (cb : Nat) (t : JTree) (path : List String) (st : Cache) :
    Option WrapRes × Cache :=
  let r := createDeepProxy cb t st
  readSteps cb (some r.1) path r.2

/-! ## The captured-template mechanism (CustomForLoop._storeTemplate,
statejs.js:1191-1198, and ConditionBlock, statejs.js:1554-1588) -/

/-- A child node of a custom element's innerHTML, as far as the capture
mechanism observes it: rendered HTML output and template children carrying
their identifying attribute. -/
inductive DomNode where
  | chunk (html : String)
  | tmpl (idAttr : String) (inner : String)
deriving Repr, DecidableEq

/-- querySelector for a template child with the given identifying
attribute value: the first match, if any. -/
def findTemplate (idv : String) : List DomNode → Option String
  | [] => none
  | .tmpl i inner :: rest => if i = idv then some inner else findTemplate idv rest
  | .chunk _ :: rest => findTemplate idv rest

/-- A custom element with a captured template: its identifying attribute
(loopid for CustomForLoop, ifid for ConditionBlock), the captured
_originalTemplate, and its current innerHTML children. -/
structure TmplEl where
  idAttr : Option String
  orig : Option String
  content : List DomNode
deriving Repr, DecidableEq

/-- The attribute value interpolated into the querySelector string: a
missing attribute stringifies to "null" inside the template literal. -/
def idSelector : Option String → String
  | some s => s
  | none => "null"

/-- Model of _storeTemplate (statejs.js:1191-1198 and 1554-1561, the two
copies are identical up to the attribute name): once _originalTemplate is
set nothing is ever re-read; otherwise the template child matching the
element's id attribute is captured from the current innerHTML. -/
def storeTemplate (el : TmplEl) : TmplEl :=
  if el.orig.isSome then el
  else { el with orig := findTemplate (idSelector el.idAttr) el.content }

/-- Shared shape of CustomForLoop.render (statejs.js:1200-1276) and
ConditionBlock.render (statejs.js:1563-1588): a missing id attribute
throws into the catch clause which writes an inline error; a missing
captured template writes an inline error; otherwise the body (the
rendering pipeline under the current, unchanged data) is applied to the
captured template and the element's innerHTML becomes the rendered output
followed by an unrendered copy of the captured template tagged with the
id.  The err argument carries the component's inline error texts. -/
def renderEl (errIdMissing errTplMissing : String) (body : String → String)
    (el : TmplEl) : TmplEl :=
  match el.idAttr with
  | none => { el with content := [.chunk errIdMissing] }
  | some lid =>
    let el1 := storeTemplate el
    match el1.orig with
    | none => { el1 with content := [.chunk errTplMissing] }
    | some t => { el1 with content := [.chunk (body t), .tmpl lid t] }

/-- CustomForLoop.render with its inline error markers. -/
def forLoopRender (body : String → String) (el : TmplEl) : TmplEl :=
  renderEl "❌ for-loop Error: for-loop requires \"loopid\" attribute"
    "❌ for-loop: Missing template with matching loopid" body el

/-- ConditionBlock.render with its inline error markers. -/
def conditionRender (body : String → String) (el : TmplEl) : TmplEl :=
  renderEl "❌ condition-block Error: condition-block requires \"ifid\" attribute"
    "❌ condition-block requires template with matching ifid" body el

/-- connectedCallback of both elements: capture the template from the
initial markup, then render. -/
def forLoopConnected (body : String → String) (el : TmplEl) : TmplEl :=
  forLoopRender body (storeTemplate el)

/-- connectedCallback of ConditionBlock. -/
def conditionConnected (body : String → String) (el : TmplEl) : TmplEl :=
  conditionRender body (storeTemplate el)

/-! ## Concrete instances used by witnesses and counterexamples, and
proof-structuring auxiliaries -/

/-- The JavaScript string-concatenation expression of the specification's
mustache example (the five characters A, +, B between quote marks). -/
def exprAB : String :=
  String.mk [Char.ofNat 39, 'A', Char.ofNat 39, '+', Char.ofNat 39, 'B', Char.ofNat 39]

/-- Evaluation oracle for the template-substitution scenarios: the
expression boom throws, the concatenation example evaluates to the string
AB, and everything else evaluates to undefined. -/
def envC5 : Env := fun e =>
  if e = "boom" then .thrown
  else if e = exprAB then .ok (.str "AB")
  else .ok .undefined

/-- Evaluation oracle for the condition scenarios: boom throws, the
numeral 5 evaluates to the number 5, the numeral 3 evaluates to the
number 3, and everything else evaluates to undefined. -/
def envC7 : Env := fun e =>
  if e = "boom" then .thrown
  else if e = "5" then .ok (.num 5)
  else if e = "3" then .ok (.num 3)
  else .ok .undefined

/-- An if-condition whose value expression throws and whose neq operand is
the numeral 5. -/
def nodeC7 : IfNode :=
  { value := some "boom", neq := some "5" }

/-- An if-condition whose value expression throws and whose gt operand is
the numeral 3. -/
def nodeC7gt : IfNode :=
  { value := some "boom", gt := some "3" }

/-- A reactive state whose own callback (id 0) is the active watcher. -/
def stActive : WatchSt :=
  { target := ⟨false, []⟩, schedSet := false, pending := 0, active := some 0, fires := [] }

/-- One synchronous mutation step as the proxy traps perform it outside the
guard: apply the raw write and schedule the callback. -/
def schedStep (s : WatchSt) (m : Mut) : WatchSt :=
  scheduleCallback { s with target := rawApply s.target m }

/-- Cache b retains every association present in cache a (caches only ever
grow, entries are never overwritten). -/
def Preserves (a b : Cache) : Prop :=
  ∀ k v, cacheLookup k a.entries = some v → cacheLookup k b.entries = some v

/-- A not-yet-connected element with id attribute L whose initial markup
holds a template child with inner text T. -/
def elW : TmplEl :=
  { idAttr := some "L", orig := none, content := [.tmpl "L" "T"] }

/-! ## Theorems -/

/-- C10: for every start and end, createRangeArray with step = 0 takes
neither the ascending nor the descending loop, terminates, and returns the
empty array, so a zero step never causes a non-terminating loop or any
iterations. -/
theorem c10_zero_step_range (start endv : Int) :
    createRangeArray start endv 0 = [] := by
  simp [createRangeArray]

/-- C6 (failing input, code bug): for a loop element with no array and
start=1, end=5, step=1, the render loop of CustomForLoop performs exactly
THREE iterations bound to the values 2, 3, 4 - not five iterations bound
to 1..5 as the specification states - because the generated range array
createRangeArray(1, 4, 1) = [1, 2, 3, 4] is then traversed starting at
index start=1 and stopping at min(end, length)=4. -/
theorem c6_range_fallback_bug :
    forLoopRangeIterations 1 5 1 one_pos = [(1, some 2), (2, some 3), (3, some 4)] ∧
    (forLoopRangeIterations 1 5 1 one_pos).length ≠ 5 := by
  have h : forLoopRangeIterations 1 5 1 one_pos = [(1, some 2), (2, some 3), (3, some 4)] := by
    simp [forLoopRangeIterations, createRangeArray, rangeUp, loopIter, jsIndex]
  exact ⟨h, by simp [h]⟩

/-- C4 (failing input, code bug): a second watch call with an
already-registered name is NOT a no-op: it replaces the window accessor
(the bound callback changes from 1 to 2) and resets the stored value (from
1 to 2); only the watchedVars set is unchanged.  The documentation
(docs/httl-s-llm-reference.md) states a second watch with the same name is
silently ignored. -/
theorem c4_watch_rebind_bug :
    watch "x" 1 1 ⟨[], []⟩ = ⟨[("x", ⟨1, 1⟩)], ["x"]⟩ ∧
    watch "x" 2 2 (watch "x" 1 1 ⟨[], []⟩) = ⟨[("x", ⟨2, 2⟩)], ["x"]⟩ := by
  constructor <;> rfl

/-- C9 (failing input, code bug): the current setState scoped to the single
loop identifier x does NOT return after refreshing that loop: with the
default flags it goes on to run every data-js binding, every data-innerhtml
binding, ALL for-loops, all data-loops and ALL condition blocks.  The older
implementation earlier in the same file did return immediately, touching
nothing else. -/
theorem c9_scoped_setState_bug :
    setState { loopid := some "x" } =
      [Action.showLoader, Action.renderLoopId "x", Action.runDataJs,
        Action.runInnerHtml, Action.renderAllLoops, Action.renderDataLoops,
        Action.renderAllConditions, Action.hideLoader] ∧
    Action.renderAllConditions ∈ setState { loopid := some "x" } ∧
    setStateOld { loopid := some "x" } =
      [Action.showLoader, Action.renderLoopId "x", Action.hideLoader] := by
  refine ⟨by decide, by decide, by decide⟩

/-- C5 (counterexample): a placeholder whose expression throws is NOT left
as the original literal double-brace text: unsafeEval catches the error and
returns undefined, so the placeholder is replaced by the empty string. -/
theorem c5_throwing_placeholder_counterexample :
    parseTemplate envC5 "X\x7b\x7b boom \x7d\x7dY" = "XY" ∧
    parseTemplate envC5 "X\x7b\x7b boom \x7d\x7dY" ≠ "X\x7b\x7b boom \x7d\x7dY" := by
  refine ⟨by decide, by decide⟩

/-- C7 (counterexample): an if-condition whose value expression raises an
evaluation error is NOT always treated as false: with a neq operand
evaluating to the number 5 the condition evaluates to TRUE, because the
error is converted to undefined and undefined !== 5 holds. -/
theorem c7_throwing_condition_counterexample :
    evaluateCondition envC7 nodeC7 = true := by
  decide

/-- C5 (amended): mustache interpolation replaces a placeholder whose
trimmed expression evaluates to a defined, non-null value by the string
form of that value; a placeholder evaluating to undefined or null yields
the empty string; a placeholder whose expression THROWS also yields the
empty string (unsafeEval converts the error to undefined - the literal
double-brace text is NOT preserved); the original matched text survives
only when converting an already-computed result to a string throws.  The
specification's own positive example holds: Hello followed by the quoted
concatenation of A and B renders as Hello AB. -/
theorem c5_amended :
    (∀ env e matched, env (trimExpr e) = .thrown → replaceOne env e matched = "") ∧
    (∀ env e matched, env (trimExpr e) = .ok .undefined → replaceOne env e matched = "") ∧
    (∀ env e matched, env (trimExpr e) = .ok .null → replaceOne env e matched = "") ∧
    (∀ env e matched v s, env (trimExpr e) = .ok v → v ≠ .undefined → v ≠ .null →
      jsToString v = some s → replaceOne env e matched = s) ∧
    (∀ env e matched v, env (trimExpr e) = .ok v → jsToString v = none →
      replaceOne env e matched = matched) ∧
    parseTemplate envC5 ("Hello \x7b\x7b " ++ exprAB ++ " \x7d\x7d") = "Hello AB" := by
  refine ⟨?_, ?_, ?_, ?_, ?_, by decide⟩
  · intro env e matched h
    simp [replaceOne, unsafeEval, h]
  · intro env e matched h
    simp [replaceOne, unsafeEval, h]
  · intro env e matched h
    simp [replaceOne, unsafeEval, h]
  · intro env e matched v s h hu hn hs
    cases v <;> simp_all [replaceOne, unsafeEval, jsToString]
  · intro env e matched v h hs
    cases v <;> simp_all [replaceOne, unsafeEval, jsToString]

/-- C5 (witness): at the concrete throwing expression boom the amended
statement yields the empty replacement. -/
theorem c5_amended_witness : replaceOne envC5 "boom" "X\x7b\x7b boom \x7d\x7dY" = "" :=
  c5_amended.1 envC5 "boom" "X\x7b\x7b boom \x7d\x7dY" (by decide)

/-- Relational comparison with undefined on the left is always false. -/
theorem jsLt_undef_left (x : JVal) : jsLt .undefined x = false := by
  cases x <;> rfl

/-- Relational comparison with undefined on the right is always false. -/
theorem jsLt_undef_right (x : JVal) : jsLt x .undefined = false := by
  cases x <;> try rfl
  case str s =>
    simp only [jsLt, toNumber]
    rcases h : (if s = "" then some (0 : Int) else s.toInt?) with _ | n <;> simp [h]

/-- Non-strict relational comparison with undefined on the left is always
false. -/
theorem jsLe_undef_left (x : JVal) : jsLe .undefined x = false := by
  cases x <;> rfl

/-- Non-strict relational comparison with undefined on the right is always
false. -/
theorem jsLe_undef_right (x : JVal) : jsLe x .undefined = false := by
  cases x <;> try rfl
  case str s =>
    simp only [jsLe, toNumber]
    rcases h : (if s = "" then some (0 : Int) else s.toInt?) with _ | n <;> simp [h]

/-- C7 (amended): when evaluating the value expression of an if-condition
raises an evaluation error, the error is converted to the undefined
sentinel rather than caught by the condition's catch clause; the condition
then evaluates to false under the gt, lt, gte, lte operands and under the
truthiness fallback, but under an eq operand it is TRUE exactly when the
operand also evaluates to undefined, and under a neq operand it is TRUE
exactly when the operand evaluates to anything other than undefined. -/
theorem c7_amended (env : Env) (n : IfNode)
    (h : unsafeEvalAttr env n.value = .undefined) :
    evaluateCondition env n =
      (match n.eq, n.neq with
       | some a, _ => jsStrictEq .undefined (unsafeEval env a)
       | none, some a => !jsStrictEq .undefined (unsafeEval env a)
       | none, none => false) := by
  rcases n with ⟨v, e1, e2, e3, e4, e5, e6⟩
  unfold evaluateCondition
  dsimp only at h ⊢
  rw [h]
  cases e1 <;> cases e2 <;> cases e3 <;> cases e4 <;> cases e5 <;> cases e6 <;>
    simp [jsGt, jsGe, jsLt_undef_left, jsLt_undef_right, jsLe_undef_left,
      jsLe_undef_right, jsTruthy]

/-- C7 (witness): at the concrete node whose value throws and whose gt
operand is 3, the amended statement gives false. -/
theorem c7_amended_witness : evaluateCondition envC7 nodeC7gt = false := by
  have h := c7_amended envC7 nodeC7gt (by decide)
  simpa [nodeC7gt] using h

/-- C2: a property write, property delete, or root re-assignment through a
wrapper whose own notification callback is the currently active watcher
raises the self-mutation error instead of re-scheduling; and the
activeWatcher slot is reset to empty after any scheduled callback
invocation finishes, whether the callback body returns normally or
throws. -/
theorem c2_self_mutation_guard (cbId : Nat) (st : WatchSt) (p : String) (v : Int)
    (nt : RObj) (h : st.active = some cbId) :
    proxySet cbId st p v = .error .selfMutation ∧
    proxyDelete cbId st p = .error .selfMutation ∧
    rootAssign cbId st nt = .error .selfMutation ∧
    (∀ body st2, (runScheduledJob cbId body st2).active = none) := by
  refine ⟨?_, ?_, ?_, ?_⟩
  · simp [proxySet, h]
  · simp [proxyDelete, h]
  · simp [rootAssign, h]
  · intro body st2
    rfl

/-- C2 (witness): the guard at the concrete state whose callback 0 is
active. -/
theorem c2_self_mutation_guard_witness :
    proxySet 0 stActive "a" 1 = .error .selfMutation ∧
    proxyDelete 0 stActive "a" = .error .selfMutation ∧
    rootAssign 0 stActive ⟨false, []⟩ = .error .selfMutation ∧
    (∀ body st2, (runScheduledJob 0 body st2).active = none) :=
  c2_self_mutation_guard 0 stActive "a" 1 ⟨false, []⟩ rfl

/-- storeTemplate never changes the id attribute. -/
theorem storeTemplate_idAttr (el : TmplEl) : (storeTemplate el).idAttr = el.idAttr := by
  unfold storeTemplate
  split <;> rfl

/-- storeTemplate never changes the innerHTML. -/
theorem storeTemplate_content (el : TmplEl) : (storeTemplate el).content = el.content := by
  unfold storeTemplate
  split <;> rfl

/-- Capturing twice captures once: _storeTemplate returns immediately when
_originalTemplate is already set, and a failed capture re-reads the same
unchanged markup. -/
theorem storeTemplate_idem (el : TmplEl) :
    storeTemplate (storeTemplate el) = storeTemplate el := by
  rcases el with ⟨ia, orig, content⟩
  cases orig with
  | some t => simp [storeTemplate]
  | none =>
    rcases h : findTemplate (idSelector ia) content with _ | t <;>
      simp [storeTemplate, h]

/-- Re-rendering a connected element reproduces its state exactly: the
template is never re-captured from rendered content and the output is
recomputed from the same captured template. -/
theorem renderEl_render_stable (e1 e2 : String) (body : String → String) (el : TmplEl) :
    renderEl e1 e2 body (renderEl e1 e2 body (storeTemplate el)) =
      renderEl e1 e2 body (storeTemplate el) := by
  rcases el with ⟨ia, orig, content⟩
  cases ia with
  | none =>
    cases orig <;> simp [renderEl, storeTemplate]
  | some lid =>
    cases orig with
    | some t => simp [renderEl, storeTemplate]
    | none =>
      rcases h : findTemplate (idSelector (some lid)) content with _ | t
      · simp [renderEl, storeTemplate, h, findTemplate]
      · simp [renderEl, storeTemplate, h]

/-- Rendering preserves whatever template the connection captured. -/
theorem renderEl_orig (e1 e2 : String) (body : String → String) (el : TmplEl) :
    (renderEl e1 e2 body (storeTemplate el)).orig = (storeTemplate el).orig := by
  rcases el with ⟨ia, orig, content⟩
  cases ia with
  | none => cases orig <;> simp [renderEl, storeTemplate]
  | some lid =>
    cases orig with
    | some t => simp [renderEl, storeTemplate]
    | none =>
      rcases h : findTemplate (idSelector (some lid)) content with _ | t <;>
        simp [renderEl, storeTemplate, h]

/-- A successful render writes the rendered output followed by the
unrendered copy of the captured template. -/
theorem renderEl_content_of_some (e1 e2 : String) (body : String → String)
    (el : TmplEl) (lid t : String) (hid : el.idAttr = some lid)
    (ht : (storeTemplate el).orig = some t) :
    (renderEl e1 e2 body (storeTemplate el)).content = [.chunk (body t), .tmpl lid t] := by
  rcases el with ⟨ia, orig, content⟩
  dsimp only at hid
  subst hid
  cases orig with
  | some u =>
    have hu : u = t := by simpa [storeTemplate] using ht
    subst hu
    simp [renderEl, storeTemplate]
  | none =>
    rcases h : findTemplate (idSelector (some lid)) content with _ | u
    · exfalso
      simp [storeTemplate, h] at ht
    · have hu : u = t := by simpa [storeTemplate, h] using ht
      subst hu
      simp [renderEl, storeTemplate, h]

/-- C8: for every loop element and every condition block under unchanged
underlying data (a fixed rendering body), rendering twice in a row yields
identical element state - in particular byte-identical innerHTML: the
template is captured exactly once at first connection, never re-captured
from rendered content, and each successful render appends an unrendered
copy of the captured template after the rendered output. -/
theorem c8_captured_template_idempotent (bodyL bodyC : String → String)
    (elL elC : TmplEl) :
    forLoopRender bodyL (forLoopConnected bodyL elL) = forLoopConnected bodyL elL ∧
    (forLoopConnected bodyL elL).orig = (storeTemplate elL).orig ∧
    (∀ lid t, elL.idAttr = some lid → (storeTemplate elL).orig = some t →
      (forLoopConnected bodyL elL).content = [.chunk (bodyL t), .tmpl lid t]) ∧
    conditionRender bodyC (conditionConnected bodyC elC) = conditionConnected bodyC elC ∧
    (conditionConnected bodyC elC).orig = (storeTemplate elC).orig ∧
    (∀ lid t, elC.idAttr = some lid → (storeTemplate elC).orig = some t →
      (conditionConnected bodyC elC).content = [.chunk (bodyC t), .tmpl lid t]) := by
  refine ⟨renderEl_render_stable _ _ _ _, renderEl_orig _ _ _ _, ?_,
    renderEl_render_stable _ _ _ _, renderEl_orig _ _ _ _, ?_⟩
  · intro lid t hid ht
    exact renderEl_content_of_some _ _ bodyL elL lid t hid ht
  · intro lid t hid ht
    exact renderEl_content_of_some _ _ bodyC elC lid t hid ht

/-- C8 (witness): connecting the concrete element elW captures template T
and renders the body output followed by the template copy. -/
theorem c8_captured_template_idempotent_witness :
    (forLoopConnected (fun s => s ++ "!") elW).content =
      [.chunk "T!", .tmpl "L" "T"] := by
  have h := (c8_captured_template_idempotent (fun s => s ++ "!") id elW elW).2.2.1
    "L" "T" rfl (by decide)
  simpa using h

/-- Raw mutations never change whether the target is an array. -/
theorem rawApply_isArr (o : RObj) (m : Mut) : (rawApply o m).isArr = o.isArr := by
  cases m <;> rfl

/-- Scheduling touches only the scheduling bookkeeping. -/
theorem scheduleCallback_target (st : WatchSt) :
    (scheduleCallback st).target = st.target := by
  unfold scheduleCallback
  split <;> rfl

/-- Scheduling does not invoke the callback. -/
theorem scheduleCallback_fires (st : WatchSt) :
    (scheduleCallback st).fires = st.fires := by
  unfold scheduleCallback
  split <;> rfl

/-- Scheduling leaves the activeWatcher slot alone. -/
theorem scheduleCallback_active (st : WatchSt) :
    (scheduleCallback st).active = st.active := by
  unfold scheduleCallback
  split <;> rfl

/-- A mutation step writes the raw value. -/
theorem schedStep_target (st : WatchSt) (m : Mut) :
    (schedStep st m).target = rawApply st.target m := by
  rw [schedStep, scheduleCallback_target]

/-- A mutation step does not invoke the callback. -/
theorem schedStep_fires (st : WatchSt) (m : Mut) :
    (schedStep st m).fires = st.fires := by
  rw [schedStep, scheduleCallback_fires]

/-- A mutation step leaves the activeWatcher slot alone. -/
theorem schedStep_active (st : WatchSt) (m : Mut) :
    (schedStep st m).active = st.active := by
  rw [schedStep, scheduleCallback_active]

/-- Outside the guard, a notifying mutation through the proxy performs the
raw write and schedules the callback. -/
theorem applyMut_ok (cbId : Nat) (st : WatchSt) (m : Mut)
    (ha : st.active = none) (hm : notifies st.target.isArr m = true) :
    applyMut cbId st m = .ok (schedStep st m) := by
  cases m with
  | set p v =>
    have hcond : ¬(st.target.isArr ∧ p = "length") := by
      simp only [notifies, Bool.not_eq_true', Bool.and_eq_false_iff] at hm
      rintro ⟨h1, h2⟩
      rcases hm with hm | hm
      · simp [hm] at h1
      · simp [h2] at hm
    simp [applyMut, proxySet, schedStep, rawApply, ha, hcond]
  | del p =>
    simp [applyMut, proxyDelete, schedStep, rawApply, ha]

/-- Outside the guard, a sequence of notifying mutations succeeds and is
the fold of the individual steps. -/
theorem applyMuts_ok (cbId : Nat) (ms : List Mut) :
    ∀ st, st.active = none → (∀ m ∈ ms, notifies st.target.isArr m = true) →
      applyMuts cbId st ms = .ok (ms.foldl schedStep st) := by
  induction ms with
  | nil =>
    intro st _ _
    rfl
  | cons m ms ih =>
    intro st ha hn
    have h1 := applyMut_ok cbId st m ha (hn m (by simp))
    have h2 : applyMuts cbId st (m :: ms) = applyMuts cbId (schedStep st m) ms := by
      simp [applyMuts, h1, Except.bind]
    rw [h2, List.foldl_cons]
    apply ih
    · rw [schedStep_active]
      exact ha
    · intro m2 hm2
      rw [schedStep_target, rawApply_isArr]
      exact hn m2 (by simp [hm2])

/-- The fold of mutation steps applies exactly the raw mutations to the
target. -/
theorem foldl_schedStep_target (ms : List Mut) :
    ∀ st : WatchSt, (ms.foldl schedStep st).target = ms.foldl rawApply st.target := by
  induction ms with
  | nil => intro st; rfl
  | cons m ms ih =>
    intro st
    rw [List.foldl_cons, List.foldl_cons, ih, schedStep_target]

/-- The synchronous mutations never invoke the callback themselves. -/
theorem foldl_schedStep_fires (ms : List Mut) :
    ∀ st : WatchSt, (ms.foldl schedStep st).fires = st.fires := by
  induction ms with
  | nil => intro st; rfl
  | cons m ms ih =>
    intro st
    rw [List.foldl_cons, ih, schedStep_fires]

/-- Once the callback is in the scheduled set, further mutations in the
same tick change nothing about the scheduling state. -/
theorem foldl_schedStep_scheduled (ms : List Mut) :
    ∀ st : WatchSt, st.schedSet = true →
      (ms.foldl schedStep st).schedSet = true ∧
      (ms.foldl schedStep st).pending = st.pending := by
  induction ms with
  | nil =>
    intro st h
    exact ⟨h, rfl⟩
  | cons m ms ih =>
    intro st h
    rw [List.foldl_cons]
    have hstep : (schedStep st m).schedSet = true ∧ (schedStep st m).pending = st.pending := by
      simp [schedStep, scheduleCallback, h]
    obtain ⟨hs, hp⟩ := ih (schedStep st m) hstep.1
    exact ⟨hs, by rw [hp, hstep.2]⟩

/-- A nonempty mutation sequence starting from a clean tick leaves exactly
one queued invocation. -/
theorem foldl_schedStep_pending_one (m : Mut) (ms : List Mut) (st : WatchSt)
    (hs : st.schedSet = false) (hp : st.pending = 0) :
    ((m :: ms).foldl schedStep st).schedSet = true ∧
    ((m :: ms).foldl schedStep st).pending = 1 := by
  rw [List.foldl_cons]
  have hstep : (schedStep st m).schedSet = true ∧ (schedStep st m).pending = 1 := by
    simp [schedStep, scheduleCallback, hs, hp]
  obtain ⟨h1, h2⟩ := foldl_schedStep_scheduled ms (schedStep st m) hstep.1
  exact ⟨h1, by rw [h2, hstep.2]⟩

/-- Draining a queue holding exactly one job invokes the recording callback
exactly once, with the value stored at that moment. -/
theorem runTick_once (cbId : Nat) (st : WatchSt) (hp : st.pending = 1) :
    (runTick cbId recordFire st).fires = st.fires ++ [st.target] := by
  unfold runTick
  rw [hp]
  simp [flushJobs, runScheduledJob, recordFire]

/-- C1: for every watched value and every nonempty sequence of synchronous
mutations through its wrapper within one tick (each of them notifying,
i.e. not an array-length write), the mutations all succeed, the callback
is not invoked during the synchronous unit, and at the end of the tick the
notification callback fires exactly once, observing the value with all
mutations applied. -/
theorem c1_batching (cbId : Nat) (v0 : RObj) (ms : List Mut)
    (hne : ms ≠ []) (hn : ∀ m ∈ ms, notifies v0.isArr m = true) :
    ∃ st, applyMuts cbId (initSt v0) ms = .ok st ∧
      st.fires = [] ∧
      st.target = ms.foldl rawApply v0 ∧
      (runTick cbId recordFire st).fires = [ms.foldl rawApply v0] := by
  refine ⟨ms.foldl schedStep (initSt v0), ?_, ?_, ?_, ?_⟩
  · exact applyMuts_ok cbId ms (initSt v0) rfl hn
  · exact foldl_schedStep_fires ms (initSt v0)
  · exact foldl_schedStep_target ms (initSt v0)
  · match ms, hne with
    | m :: ms', _ =>
      have hp := (foldl_schedStep_pending_one m ms' (initSt v0) rfl rfl).2
      rw [runTick_once cbId _ hp, foldl_schedStep_fires, foldl_schedStep_target]
      rfl

/-- C1 (witness): three concrete mutations to a watched array coalesce
into a single end-of-tick invocation observing all three. -/
theorem c1_batching_witness :
    ∃ st, applyMuts 0 (initSt ⟨true, [("a", 10)]⟩)
        [Mut.set "a" 1, Mut.set "b" 2, Mut.del "a"] = .ok st ∧
      st.fires = [] ∧
      st.target = [Mut.set "a" 1, Mut.set "b" 2, Mut.del "a"].foldl rawApply ⟨true, [("a", 10)]⟩ ∧
      (runTick 0 recordFire st).fires =
        [[Mut.set "a" 1, Mut.set "b" 2, Mut.del "a"].foldl rawApply ⟨true, [("a", 10)]⟩] :=
  c1_batching 0 ⟨true, [("a", 10)]⟩ [Mut.set "a" 1, Mut.set "b" 2, Mut.del "a"]
    (by decide) (by decide)

/-- The preservation relation is reflexive. -/
theorem Preserves.refl (st : Cache) : Preserves st st :=
  fun _ _ h => h

/-- The preservation relation is transitive. -/
theorem Preserves.trans {a b c : Cache} (h1 : Preserves a b) (h2 : Preserves b c) :
    Preserves a c :=
  fun k v h => h2 k v (h1 k v h)

/-- Wrapping only ever adds cache entries under keys that were absent, so
every existing association survives. -/
theorem createDeepProxy_preserves (cb : Nat) (t : JTree) (st : Cache) :
    Preserves st (createDeepProxy cb t st).2 := by
  intro k v h
  cases t with
  | leaf w => exact h
  | node id ch =>
    simp only [createDeepProxy]
    rcases hl : cacheLookup (id, cb) st.entries with _ | pid
    · dsimp only
      rw [cacheLookup]
      split
      · rename_i heq
        rw [← heq] at h
        rw [h] at hl
        cases hl
      · exact h
    · exact h

/-- A cache hit returns the cached proxy and leaves the cache unchanged. -/
theorem createDeepProxy_cached (cb : Nat) (id : Nat) (ch : List (String × JTree))
    (st : Cache) (pid : Nat) (h : cacheLookup (id, cb) st.entries = some pid) :
    createDeepProxy cb (.node id ch) st = (.wrapped pid (.node id ch), st) := by
  simp only [createDeepProxy]
  rw [h]

/-- After wrapping an object node, the cache holds exactly the proxy that
was returned. -/
theorem createDeepProxy_post (cb : Nat) (id : Nat) (ch : List (String × JTree))
    (st : Cache) :
    ∃ pid, (createDeepProxy cb (.node id ch) st).1 = .wrapped pid (.node id ch) ∧
      cacheLookup (id, cb) (createDeepProxy cb (.node id ch) st).2.entries = some pid := by
  simp only [createDeepProxy]
  rcases hl : cacheLookup (id, cb) st.entries with _ | pid
  · dsimp only
    exact ⟨st.fresh, rfl, by rw [cacheLookup]; simp⟩
  · dsimp only
    exact ⟨pid, rfl, hl⟩

/-- Rewrapping against any cache that retains the entries of the first
wrap's result returns the first wrapper and adds nothing. -/
theorem createDeepProxy_stable (cb : Nat) (t : JTree) (st st2 : Cache)
    (h : Preserves (createDeepProxy cb t st).2 st2) :
    createDeepProxy cb t st2 = ((createDeepProxy cb t st).1, st2) := by
  cases t with
  | leaf w => rfl
  | node id ch =>
    obtain ⟨pid, h1, h2⟩ := createDeepProxy_post cb id ch st
    have h3 : cacheLookup (id, cb) st2.entries = some pid := h (id, cb) pid h2
    rw [createDeepProxy_cached cb id ch st2 pid h3, h1]

/-- C3 (part 1, as a lemma): wrapping the same value twice returns the
same wrapper and the second wrap leaves the cache unchanged. -/
theorem createDeepProxy_idem (cb : Nat) (t : JTree) (st : Cache) :
    createDeepProxy cb t (createDeepProxy cb t st).2 = createDeepProxy cb t st := by
  rw [createDeepProxy_stable cb t st (createDeepProxy cb t st).2 (Preserves.refl _)]

/-- The get trap only grows the cache. -/
theorem proxyGet_preserves (cb : Nat) (t : JTree) (p : String) (st : Cache) :
    Preserves st (proxyGet cb t p st).2 := by
  cases t with
  | leaf w => exact Preserves.refl st
  | node id ch =>
    simp only [proxyGet]
    rcases hl : childLookup p ch with _ | sub
    · exact Preserves.refl st
    · dsimp only
      exact createDeepProxy_preserves cb sub st

/-- Repeating a get against a cache retaining the first get's entries
returns the first result and adds nothing. -/
theorem proxyGet_stable (cb : Nat) (t : JTree) (p : String) (st st2 : Cache)
    (h : Preserves (proxyGet cb t p st).2 st2) :
    proxyGet cb t p st2 = ((proxyGet cb t p st).1, st2) := by
  cases t with
  | leaf w => rfl
  | node id ch =>
    simp only [proxyGet] at h ⊢
    rcases hl : childLookup p ch with _ | sub
    · rfl
    · rw [hl] at h
      dsimp only at h ⊢
      rw [createDeepProxy_stable cb sub st st2 h]

/-- A chain of property reads only grows the cache. -/
theorem readSteps_preserves (cb : Nat) (path : List String) :
    ∀ r st, Preserves st (readSteps cb r path st).2 := by
  induction path with
  | nil =>
    intro r st
    cases r with
    | none => exact Preserves.refl st
    | some w =>
      cases w with
      | raw v => exact Preserves.refl st
      | wrapped pid t => exact Preserves.refl st
  | cons p ps ih =>
    intro r st
    cases r with
    | none => exact Preserves.refl st
    | some w =>
      cases w with
      | raw v => exact Preserves.refl st
      | wrapped pid t =>
        show Preserves st (readSteps cb (proxyGet cb t p st).1 ps (proxyGet cb t p st).2).2
        exact (proxyGet_preserves cb t p st).trans
          (ih (proxyGet cb t p st).1 (proxyGet cb t p st).2)

/-- Retracing a chain of reads against a cache retaining the first chain's
entries reproduces the first result and adds nothing. -/
theorem readSteps_stable (cb : Nat) (path : List String) :
    ∀ r st st2, Preserves (readSteps cb r path st).2 st2 →
      readSteps cb r path st2 = ((readSteps cb r path st).1, st2) := by
  induction path with
  | nil =>
    intro r st st2 _
    cases r with
    | none => rfl
    | some w =>
      cases w with
      | raw v => rfl
      | wrapped pid t => rfl
  | cons p ps ih =>
    intro r st st2 h
    cases r with
    | none => rfl
    | some w =>
      cases w with
      | raw v => rfl
      | wrapped pid t =>
        have hmid : Preserves (proxyGet cb t p st).2
            (readSteps cb (proxyGet cb t p st).1 ps (proxyGet cb t p st).2).2 :=
          readSteps_preserves cb ps (proxyGet cb t p st).1 (proxyGet cb t p st).2
        have h1 : Preserves (proxyGet cb t p st).2 st2 := by
          apply hmid.trans
          exact h
        have h2 : proxyGet cb t p st2 = ((proxyGet cb t p st).1, st2) :=
          proxyGet_stable cb t p st st2 h1
        show readSteps cb (proxyGet cb t p st2).1 ps (proxyGet cb t p st2).2 =
          ((readSteps cb (proxyGet cb t p st).1 ps (proxyGet cb t p st).2).1, st2)
        rw [h2]
        exact ih (proxyGet cb t p st).1 (proxyGet cb t p st).2 st2 h

/-- C3: wrapping the same underlying value twice with the same callback
returns the same wrapper instance (and the second wrap does not change the
cache), and reading the same nested property path off the tracked wrapper
twice yields reference-equal results (the second traversal is served
entirely from the proxy cache). -/
theorem c3_referential_stability (cb : Nat) (t : JTree) (path : List String)
    (st : Cache) :
    createDeepProxy cb t (createDeepProxy cb t st).2 = createDeepProxy cb t st ∧
    readPath cb t path (readPath cb t path st).2 = readPath cb t path st := by
  refine ⟨createDeepProxy_idem cb t st, ?_⟩
  show (let r := createDeepProxy cb t (readPath cb t path st).2
    readSteps cb (some r.1) path r.2) = readPath cb t path st
  have hroot : Preserves (createDeepProxy cb t st).2 (readPath cb t path st).2 :=
    readSteps_preserves cb path (some (createDeepProxy cb t st).1)
      (createDeepProxy cb t st).2
  have h1 : createDeepProxy cb t (readPath cb t path st).2 =
      ((createDeepProxy cb t st).1, (readPath cb t path st).2) :=
    createDeepProxy_stable cb t st (readPath cb t path st).2 hroot
  rw [h1]
  exact readSteps_stable cb path (some (createDeepProxy cb t st).1)
    (createDeepProxy cb t st).2 (readPath cb t path st).2 (Preserves.refl _)

end HTTLS
